import Mathlib

/-!
Verification of the billing integration library: plan catalog, entitlement
mapper, webhook reconciler and server-side billing actions, shallowly
embedded from the TypeScript source.  JavaScript truthiness on optional
strings and numbers, `Set` insertion-order deduplication and the datastore
row operations are modelled explicitly.
-/

/-- JavaScript truthiness test for an optional string: `null`/`undefined`
and the empty string are falsy. -/
def jsFalsyStr : Option String → Bool
  | none => true
  | some s => s == ""

/-- JavaScript truthiness test for an optional number: `null`/`undefined`
and `0` are falsy. -/
def jsFalsyNum : Option Int → Bool
  | none => true
  | some n => n == 0

/-- `toIsoString` from the webhook module: returns `null` for a falsy
(unix-seconds) input, otherwise the timestamp (ISO rendering abstracted
as the numeric value). -/
def toIsoString : Option Int → Option Int
  | none => none
  | some n => if n == 0 then none else some n

/-- One step of JavaScript `Set` insertion: add `a` at the end unless
already present. -/
def addToSet (acc : List String) (a : String) : List String :=
  if a ∈ acc then acc else acc ++ [a]

/-- `Array.from(new Set(l))`: first-occurrence-order deduplication. -/
def jsDedup (l : List String) : List String :=
  l.foldl addToSet []

/-! ## Plan catalog (`src/billing/plans.ts`) -/

/-- The environment variables that feed the catalog: the three external
price references. -/
structure Env where
  STRIPE_PRICE_CONTENT_PACK : String
  STRIPE_PRICE_PRO_MONTHLY : String
  STRIPE_PRICE_PRO_ANNUAL : String
deriving DecidableEq, Repr

/-- A catalog entry, as in `BillingPlan`. -/
structure BillingPlan where
  id : String
  name : String
  description : String
  priceId : String
  amount : Int
  currency : String
  interval : String
  flags : List String
deriving DecidableEq, Repr

/-- The static catalog `billingPlans`. -/
def billingPlans (env : Env) : List BillingPlan :=
  [ { id := "content_pack"
    , name := "Content Pack"
    , description := "One-time access to premium content."
    , priceId := env.STRIPE_PRICE_CONTENT_PACK
    , amount := 1500
    , currency := "gbp"
    , interval := "one_time"
    , flags := ["content_pack"] }
  , { id := "pro_monthly"
    , name := "Pro Monthly"
    , description := "Monthly subscription with downloads."
    , priceId := env.STRIPE_PRICE_PRO_MONTHLY
    , amount := 1200
    , currency := "gbp"
    , interval := "month"
    , flags := ["pro_content", "download_access"] }
  , { id := "pro_annual"
    , name := "Pro Annual"
    , description := "Annual subscription with support."
    , priceId := env.STRIPE_PRICE_PRO_ANNUAL
    , amount := 12000
    , currency := "gbp"
    , interval := "year"
    , flags := ["pro_content", "download_access", "priority_support"] } ]

/-- `billingPlans.find((plan) => plan.priceId === priceId)`. -/
def getPlanByPriceId (env : Env) (priceId : String) : Option BillingPlan :=
  (billingPlans env).find? (fun plan => plan.priceId == priceId)

/-- `getFlagsForPriceIds`: iterate the catalog, adding the flags of every
plan whose price id is contained in the input to a `Set`, and return the
set in insertion order. -/
def getFlagsForPriceIds (env : Env) (priceIds : List String) : List String :=
  jsDedup
    (((billingPlans env).filter (fun plan => priceIds.contains plan.priceId)).map
      (fun plan => plan.flags)).flatten

/-- `subscriptionFlagSet`: the set of flags of all non-one-time plans. -/
def subscriptionFlagSet (env : Env) : List String :=
  jsDedup
    (((billingPlans env).filter (fun plan => plan.interval != "one_time")).map
      (fun plan => plan.flags)).flatten

/-! ## Webhook reconciler (`src/webhook/stripe.ts`) -/

/-- A row of the `profiles` table (columns touched by this library). -/
structure Profile where
  id : String
  stripe_customer_id : Option String
  stripe_subscription_id : Option String
  stripe_subscription_status : Option String
  stripe_price_id : Option String
  stripe_current_period_end : Option Int
  stripe_trial_end : Option Int
  feature_flags : Option (List String)
deriving DecidableEq, Repr

/-- A datastore operation performed by the webhook handlers, keyed by the
external customer reference. -/
inductive DsOp where
  | read (customer : String)
  | write (customer : String)
deriving DecidableEq, Repr

/-- A provider subscription object as seen by the webhook handlers:
`items.data` is kept as the list of `item.price?.id` values. -/
structure Subscription where
  id : String
  customer : Option String
  status : String
  itemPriceIds : List (Option String)
  current_period_end : Option Int
  trial_end : Option Int
deriving DecidableEq, Repr

/-- A provider payment intent as seen by `handlePaymentIntentSucceeded`. -/
structure PaymentIntent where
  metadata_price_id : Option String
  customer : Option String
deriving DecidableEq, Repr

/-- A provider invoice as seen by `handleInvoicePaid`: `invoice.subscription`
reduced to the subscription id it resolves to. -/
structure Invoice where
  subscriptionId : Option String
deriving DecidableEq, Repr

/-- The webhook event payloads the `POST` handler dispatches on. -/
inductive Event where
  | payment_intent_succeeded (pi : PaymentIntent)
  | invoice_paid (inv : Invoice)
  | subscription_created (s : Subscription)
  | subscription_updated (s : Subscription)
  | subscription_deleted (s : Subscription)
  | other
deriving DecidableEq, Repr

/-- `subscription.items.data.map((item) => item.price?.id).filter(Boolean)`. -/
def subPriceIds (s : Subscription) : List String :=
  (s.itemPriceIds.filterMap (fun o => o)).filter (fun i => i != "")

/-- The rows matching `.eq(stripe_customer_id, c)`. -/
def profilesFor (db : List Profile) (c : String) : List Profile :=
  db.filter (fun p => p.stripe_customer_id == some c)

/-- `getProfileFlagsForCustomer`: `.select(feature_flags).eq(...).single()`;
an error (no unique row) is thrown, a non-array column reads as `[]`. -/
def getProfileFlagsForCustomer (db : List Profile) (c : String) :
    Except String (List String) :=
  match profilesFor db c with
  | [p] => .ok (p.feature_flags.getD [])
  | _ => .error "profile lookup failed"

/-- `updateProfileForCustomer`: `.update(u).eq(stripe_customer_id, c)`. -/
def updateProfileForCustomer (db : List Profile) (c : String)
    (u : Profile → Profile) : List Profile :=
  db.map (fun p => if p.stripe_customer_id == some c then u p else p)

/-- The flag recomputation of `handleSubscriptionUpdate` (lines computing
`retainedFlags` and `nextFlags`). -/
def nextFlagsFor (env : Env) (currentFlags priceIds : List String) : List String :=
  jsDedup
    (currentFlags.filter (fun flag => !(subscriptionFlagSet env).contains flag) ++
      getFlagsForPriceIds env priceIds)

/-- The field update written by `handleSubscriptionUpdate`. -/
def subUpdateRow (s : Subscription) (next : List String) (p : Profile) : Profile :=
  { p with
    stripe_subscription_id := some s.id
    stripe_subscription_status := some s.status
    stripe_price_id := (subPriceIds s).head?
    stripe_current_period_end := toIsoString s.current_period_end
    stripe_trial_end := toIsoString s.trial_end
    feature_flags := some next }

/-- `handleSubscriptionUpdate`: recompute the merged flags and store the
subscription snapshot, keyed by the event customer.  The result is the
thrown-or-returned outcome together with the datastore operations made. -/
def handleSubscriptionUpdate (env : Env) (s : Subscription) (db : List Profile) :
    Except String (List Profile) × List DsOp :=
  if jsFalsyStr s.customer then (.ok db, [])
  else
    match s.customer with
    | none => (.ok db, [])
    | some c =>
      match getProfileFlagsForCustomer db c with
      | .error e => (.error e, [DsOp.read c])
      | .ok currentFlags =>
        let next := nextFlagsFor env currentFlags (subPriceIds s)
        (.ok (updateProfileForCustomer db c (subUpdateRow s next)),
         [DsOp.read c, DsOp.write c])

/-- The field update written by `handleSubscriptionDeleted` (note: neither
`stripe_price_id` nor `stripe_trial_end` is touched). -/
def subDeleteRow (s : Subscription) (retained : List String)
    (p : Profile) : Profile :=
  { p with
    stripe_subscription_id := some s.id
    stripe_subscription_status := some s.status
    stripe_current_period_end := toIsoString s.current_period_end
    feature_flags := some retained }

/-- `handleSubscriptionDeleted`: keep only the non-subscription flags and
store the terminal snapshot. -/
def handleSubscriptionDeleted (env : Env) (s : Subscription) (db : List Profile) :
    Except String (List Profile) × List DsOp :=
  if jsFalsyStr s.customer then (.ok db, [])
  else
    match s.customer with
    | none => (.ok db, [])
    | some c =>
      match getProfileFlagsForCustomer db c with
      | .error e => (.error e, [DsOp.read c])
      | .ok currentFlags =>
        let retained :=
          currentFlags.filter (fun flag => !(subscriptionFlagSet env).contains flag)
        (.ok (updateProfileForCustomer db c (subDeleteRow s retained)),
         [DsOp.read c, DsOp.write c])

/-- `handlePaymentIntentSucceeded`: union the purchased flags into the
stored flags (additive; only `feature_flags` is written). -/
def handlePaymentIntentSucceeded (env : Env) (pi : PaymentIntent)
    (db : List Profile) : Except String (List Profile) × List DsOp :=
  if jsFalsyStr pi.metadata_price_id || jsFalsyStr pi.customer then (.ok db, [])
  else
    match pi.metadata_price_id, pi.customer with
    | some priceId, some c =>
      let flags := getFlagsForPriceIds env [priceId]
      match getProfileFlagsForCustomer db c with
      | .error e => (.error e, [DsOp.read c])
      | .ok currentFlags =>
        let next := jsDedup (currentFlags ++ flags)
        (.ok (updateProfileForCustomer db c
                (fun p => { p with feature_flags := some next })),
         [DsOp.read c, DsOp.write c])
    | _, _ => (.ok db, [])

/-- The provider oracle seen by the webhook endpoint: what signature
verification parses the request into, and what `subscriptions.retrieve`
returns for `invoice.paid`. -/
structure WebhookWorld where
  constructEvent : Except String Event
  retrieveSubscription : String → Except String Subscription

/-- `handleInvoicePaid`: resolve the associated subscription and treat the
event as a subscription update.  A failing retrieve is thrown. -/
def handleInvoicePaid (env : Env) (w : WebhookWorld) (inv : Invoice)
    (db : List Profile) : Except String (List Profile) × List DsOp :=
  if jsFalsyStr inv.subscriptionId then (.ok db, [])
  else
    match inv.subscriptionId with
    | none => (.ok db, [])
    | some sid =>
      match w.retrieveSubscription sid with
      | .error e => (.error e, [])
      | .ok s => handleSubscriptionUpdate env s db

/-- What the webhook endpoint replied and did. -/
structure PostOut where
  status : Nat
  body : String
  db : List Profile
  ops : List DsOp
  dispatched : Bool
deriving DecidableEq, Repr

/-- The `switch (event.type)` dispatch inside the `try` block. -/
def dispatchEvent (env : Env) (w : WebhookWorld) (ev : Event) (db : List Profile) :
    Except String (List Profile) × List DsOp :=
  match ev with
  | .payment_intent_succeeded pi => handlePaymentIntentSucceeded env pi db
  | .invoice_paid inv => handleInvoicePaid env w inv db
  | .subscription_created s => handleSubscriptionUpdate env s db
  | .subscription_updated s => handleSubscriptionUpdate env s db
  | .subscription_deleted s => handleSubscriptionDeleted env s db
  | .other => (.ok db, [])

/-- The webhook `POST` endpoint: 400 on a missing signature, 400 when
signature verification throws, 500 when a handler throws, otherwise 200
with body `ok`. -/
def POST (env : Env) (w : WebhookWorld) (signature : Option String)
    (db : List Profile) : PostOut :=
  if jsFalsyStr signature then
    { status := 400, body := "Missing stripe signature", db := db
    , ops := [], dispatched := false }
  else
    match w.constructEvent with
    | .error msg =>
        { status := 400, body := msg, db := db, ops := [], dispatched := false }
    | .ok ev =>
        match dispatchEvent env w ev db with
        | (.error msg, ops) =>
            { status := 500, body := msg, db := db, ops := ops, dispatched := true }
        | (.ok db2, ops) =>
            { status := 200, body := "ok", db := db2, ops := ops, dispatched := true }

/-! ## Billing actions (`src/billing/server.ts`) -/

/-- The authenticated user returned by the session lookup. -/
structure User where
  id : String
  email : Option String
deriving DecidableEq, Repr

/-- A provider price object as fetched by `stripe.prices.retrieve`. -/
structure StripePrice where
  unit_amount : Option Int
  currency : String
  type : String
deriving DecidableEq, Repr

/-- A possibly-expanded nested provider object: absent, an unexpanded id
string, or the expanded object. -/
inductive Expandable (α : Type) where
  | absent
  | idOnly (s : String)
  | obj (a : α)
deriving DecidableEq, Repr

/-- The expanded payment intent inside `latest_invoice`. -/
structure PIObj where
  client_secret : Option String
deriving DecidableEq, Repr

/-- The expanded `latest_invoice` of a created subscription. -/
structure InvoiceObj where
  payment_intent : Expandable PIObj
deriving DecidableEq, Repr

/-- What `stripe.subscriptions.create` returns. -/
structure SubCreateResult where
  id : String
  latest_invoice : Expandable InvoiceObj
deriving DecidableEq, Repr

/-- The row read by `updateSubscription`. -/
structure SubRow where
  stripe_subscription_id : Option String
  stripe_price_id : Option String
  stripe_subscription_status : Option String
deriving DecidableEq, Repr

/-- The row read by `getBillingProfile`. -/
structure ProfileView where
  stripe_subscription_status : Option String
  stripe_price_id : Option String
  stripe_current_period_end : Option Int
  stripe_trial_end : Option Int
  feature_flags : Option (List String)
  stripe_subscription_id : Option String
deriving DecidableEq, Repr

/-- The subscription object fetched by `updateSubscription` before the
swap, reduced to its `items.data` element ids. -/
structure RetrievedSub where
  itemIds : List String
deriving DecidableEq, Repr

/-- A provider API call made by an action. -/
inductive Call where
  | customersCreate
  | pricesRetrieve
  | paymentIntentsCreate
  | subscriptionsCreate
  | subscriptionsRetrieve
  | subscriptionsUpdate
  | portalSessionsCreate
deriving DecidableEq, Repr

/-- The value an action returns to its caller (the `{ error }` /
`{ clientSecret }` / ... result objects). -/
inductive BillingResult where
  | errorMsg (msg : String)
  | clientSecret (cs : Option String)
  | subCreated (cs : Option String) (subId : String)
  | cancelOk (cancelAt : Option Int)
  | portalUrl (url : Option String)
  | profileSnapshot (p : ProfileView)
  | updateOk (newPeriodEnd : Option Int)
deriving DecidableEq, Repr

/-- The outcome of one action invocation: either a returned result value
or a thrown exception (`Except.error`), plus the provider calls made. -/
structure Outcome where
  res : Except String BillingResult
  calls : List Call
deriving Repr

/-- The responses of the external collaborators for one action
invocation: the session lookup, the per-query datastore responses
(`Except.error` = query error) and the provider responses
(`Except.error` = rejected promise). -/
structure ActionWorld where
  authUser : Option User
  selectCustomerId : Except String (Option String)
  updateCustomerId : Except String Unit
  selectBillingProfile : Except String ProfileView
  selectSubscriptionId : Except String (Option String)
  selectSubRow : Except String SubRow
  customersCreate : Except String String
  pricesRetrieve : Except String StripePrice
  paymentIntentsCreate : Except String (Option String)
  subscriptionsCreate : Except String SubCreateResult
  subscriptionsRetrieve : Except String RetrievedSub
  subscriptionsUpdateCancel : Except String (Option Int)
  subscriptionsUpdateSwap : Except String (Option Int)
  portalCreate : Except String (Option String)

/-- `ensureStripeCustomer`: read the stored customer reference; when
absent, create one at the provider and persist it.  Datastore errors and
a failing `customers.create` are thrown. -/
def ensureStripeCustomer (w : ActionWorld) : Except String String × List Call :=
  match w.selectCustomerId with
  | .error e => (.error e, [])
  | .ok cid? =>
    if jsFalsyStr cid? then
      match w.customersCreate with
      | .error e => (.error e, [Call.customersCreate])
      | .ok cid =>
        match w.updateCustomerId with
        | .error e => (.error e, [Call.customersCreate])
        | .ok _ => (.ok cid, [Call.customersCreate])
    else
      match cid? with
      | some cid => (.ok cid, [])
      | none => (.error "unreachable", [])

/-- `createPaymentIntent(priceId)`. -/
def createPaymentIntent (env : Env) (w : ActionWorld) (priceId : String) : Outcome :=
  match w.authUser with
  | none => ⟨.ok (.errorMsg "Not authenticated."), []⟩
  | some _ =>
    match getPlanByPriceId env priceId with
    | none => ⟨.ok (.errorMsg "Invalid price selection."), []⟩
    | some plan =>
      if plan.interval != "one_time" then
        ⟨.ok (.errorMsg "Invalid price selection."), []⟩
      else
        match ensureStripeCustomer w with
        | (.error e, cs) => ⟨.error e, cs⟩
        | (.ok _cid, cs) =>
          match w.pricesRetrieve with
          | .error e => ⟨.error e, cs ++ [Call.pricesRetrieve]⟩
          | .ok price =>
            if jsFalsyNum price.unit_amount || price.currency != plan.currency ||
                price.type != "one_time" then
              ⟨.ok (.errorMsg "Price configuration error."),
               cs ++ [Call.pricesRetrieve]⟩
            else
              match w.paymentIntentsCreate with
              | .error e =>
                  ⟨.error e, cs ++ [Call.pricesRetrieve, Call.paymentIntentsCreate]⟩
              | .ok secret =>
                  ⟨.ok (.clientSecret secret),
                   cs ++ [Call.pricesRetrieve, Call.paymentIntentsCreate]⟩

/-- `createSubscription(priceId)`. -/
def createSubscription (env : Env) (w : ActionWorld) (priceId : String) : Outcome :=
  match w.authUser with
  | none => ⟨.ok (.errorMsg "Not authenticated."), []⟩
  | some _ =>
    match getPlanByPriceId env priceId with
    | none => ⟨.ok (.errorMsg "Invalid price selection."), []⟩
    | some plan =>
      if plan.interval == "one_time" then
        ⟨.ok (.errorMsg "Invalid price selection."), []⟩
      else
        match ensureStripeCustomer w with
        | (.error e, cs) => ⟨.error e, cs⟩
        | (.ok _cid, cs) =>
          match w.subscriptionsCreate with
          | .error e => ⟨.error e, cs ++ [Call.subscriptionsCreate]⟩
          | .ok sub =>
            match sub.latest_invoice with
            | .absent =>
                ⟨.ok (.errorMsg "Subscription payment could not be initialized."),
                 cs ++ [Call.subscriptionsCreate]⟩
            | .idOnly _ =>
                ⟨.ok (.errorMsg "Subscription payment could not be initialized."),
                 cs ++ [Call.subscriptionsCreate]⟩
            | .obj inv =>
              match inv.payment_intent with
              | .absent =>
                  ⟨.ok (.errorMsg "Subscription payment could not be initialized."),
                   cs ++ [Call.subscriptionsCreate]⟩
              | .idOnly _ =>
                  ⟨.ok (.errorMsg "Subscription payment could not be initialized."),
                   cs ++ [Call.subscriptionsCreate]⟩
              | .obj intent =>
                  ⟨.ok (.subCreated intent.client_secret sub.id),
                   cs ++ [Call.subscriptionsCreate]⟩

/-- `getBillingProfile()`. -/
def getBillingProfile (w : ActionWorld) : Outcome :=
  match w.authUser with
  | none => ⟨.ok (.errorMsg "Not authenticated."), []⟩
  | some _ =>
    match w.selectBillingProfile with
    | .error e => ⟨.ok (.errorMsg e), []⟩
    | .ok pv => ⟨.ok (.profileSnapshot pv), []⟩

/-- `cancelSubscription()`. -/
def cancelSubscription (w : ActionWorld) : Outcome :=
  match w.authUser with
  | none => ⟨.ok (.errorMsg "Not authenticated."), []⟩
  | some _ =>
    match w.selectSubscriptionId with
    | .error e => ⟨.ok (.errorMsg e), []⟩
    | .ok sid? =>
      if jsFalsyStr sid? then
        ⟨.ok (.errorMsg "No active subscription found."), []⟩
      else
        match w.subscriptionsUpdateCancel with
        | .error e => ⟨.ok (.errorMsg e), [Call.subscriptionsUpdate]⟩
        | .ok cancelAt =>
            ⟨.ok (.cancelOk (toIsoString cancelAt)), [Call.subscriptionsUpdate]⟩

/-- `createCustomerPortalSession(returnUrl)`. -/
def createCustomerPortalSession (w : ActionWorld) (_returnUrl : String) : Outcome :=
  match w.authUser with
  | none => ⟨.ok (.errorMsg "Not authenticated."), []⟩
  | some _ =>
    match w.selectCustomerId with
    | .error e => ⟨.ok (.errorMsg e), []⟩
    | .ok cid? =>
      if jsFalsyStr cid? then
        ⟨.ok (.errorMsg "No Stripe customer found. Please make a purchase first."), []⟩
      else
        match w.portalCreate with
        | .error e => ⟨.ok (.errorMsg e), [Call.portalSessionsCreate]⟩
        | .ok url => ⟨.ok (.portalUrl url), [Call.portalSessionsCreate]⟩

/-- `updateSubscription(newPriceId)`. -/
def updateSubscription (env : Env) (w : ActionWorld) (newPriceId : String) : Outcome :=
  match w.authUser with
  | none => ⟨.ok (.errorMsg "Not authenticated."), []⟩
  | some _ =>
    match getPlanByPriceId env newPriceId with
    | none =>
        ⟨.ok (.errorMsg "Invalid plan selection. Only subscription plans are supported."), []⟩
    | some targetPlan =>
      if targetPlan.interval == "one_time" then
        ⟨.ok (.errorMsg "Invalid plan selection. Only subscription plans are supported."), []⟩
      else
        match w.selectSubRow with
        | .error e => ⟨.ok (.errorMsg e), []⟩
        | .ok row =>
          if jsFalsyStr row.stripe_subscription_id then
            ⟨.ok (.errorMsg "No active subscription found."), []⟩
          else if !(row.stripe_subscription_status == some "active" ||
                    row.stripe_subscription_status == some "trialing") then
            ⟨.ok (.errorMsg "Cannot change plans for inactive subscriptions."), []⟩
          else if row.stripe_price_id == some newPriceId then
            ⟨.ok (.errorMsg "You are already on this plan."), []⟩
          else
            match w.subscriptionsRetrieve with
            | .error e => ⟨.ok (.errorMsg e), [Call.subscriptionsRetrieve]⟩
            | .ok rsub =>
              match rsub.itemIds with
              | [] =>
                  ⟨.ok (.errorMsg "Subscription configuration error."),
                   [Call.subscriptionsRetrieve]⟩
              | _ :: _ =>
                match w.subscriptionsUpdateSwap with
                | .error e =>
                    ⟨.ok (.errorMsg e),
                     [Call.subscriptionsRetrieve, Call.subscriptionsUpdate]⟩
                | .ok pe =>
                    ⟨.ok (.updateOk (toIsoString pe)),
                     [Call.subscriptionsRetrieve, Call.subscriptionsUpdate]⟩

/-! ## Concrete fixtures used by witnesses and counterexamples -/

/-- A concrete environment configuration. -/
def env0 : Env :=
  { STRIPE_PRICE_CONTENT_PACK := "price_cp"
  , STRIPE_PRICE_PRO_MONTHLY := "price_mo"
  , STRIPE_PRICE_PRO_ANNUAL := "price_an" }

/-- A stored profile holding a one-time flag and a subscription flag. -/
def profile0 : Profile :=
  { id := "user_1"
  , stripe_customer_id := some "cus_1"
  , stripe_subscription_id := some "sub_1"
  , stripe_subscription_status := some "active"
  , stripe_price_id := some "price_mo"
  , stripe_current_period_end := some 1700000000
  , stripe_trial_end := none
  , feature_flags := some ["content_pack", "pro_content"] }

/-- A `customer.subscription.deleted` event for that customer. -/
def subDeleted0 : Subscription :=
  { id := "sub_1"
  , customer := some "cus_1"
  , status := "canceled"
  , itemPriceIds := []
  , current_period_end := some 1700000000
  , trial_end := none }

/-- A `customer.subscription.updated` event moving the customer to the
annual plan. -/
def subUpdated0 : Subscription :=
  { id := "sub_1"
  , customer := some "cus_1"
  , status := "active"
  , itemPriceIds := [some "price_an"]
  , current_period_end := some 1700000000
  , trial_end := none }

/-- An authenticated user. -/
def user0 : User := { id := "user_1", email := some "a@b.c" }

/-- A baseline action world: authenticated user, stored customer and
subscription references, and successful provider responses. -/
def world0 : ActionWorld :=
  { authUser := some user0
  , selectCustomerId := .ok (some "cus_1")
  , updateCustomerId := .ok ()
  , selectBillingProfile := .ok
      { stripe_subscription_status := some "active"
      , stripe_price_id := some "price_mo"
      , stripe_current_period_end := some 1700000000
      , stripe_trial_end := none
      , feature_flags := some ["pro_content"]
      , stripe_subscription_id := some "sub_1" }
  , selectSubscriptionId := .ok (some "sub_1")
  , selectSubRow := .ok
      { stripe_subscription_id := some "sub_1"
      , stripe_price_id := some "price_mo"
      , stripe_subscription_status := some "active" }
  , customersCreate := .ok "cus_1"
  , pricesRetrieve := .ok { unit_amount := some 1500, currency := "gbp", type := "one_time" }
  , paymentIntentsCreate := .ok (some "secret_1")
  , subscriptionsCreate := .ok
      { id := "sub_2"
      , latest_invoice := .obj { payment_intent := .obj { client_secret := some "secret_2" } } }
  , subscriptionsRetrieve := .ok { itemIds := ["si_1"] }
  , subscriptionsUpdateCancel := .ok (some 1700000000)
  , subscriptionsUpdateSwap := .ok (some 1700000000)
  , portalCreate := .ok (some "https://portal.example") }

/-- A webhook world whose signature verification throws. -/
def wwBadSig : WebhookWorld :=
  { constructEvent := .error "Webhook signature failed."
  , retrieveSubscription := fun _ => .error "ignored" }

/-- A payment intent carrying no price id in its metadata. -/
def piNoMeta : PaymentIntent :=
  { metadata_price_id := none, customer := some "cus_1" }

/-- A webhook world delivering a `payment_intent.succeeded` event whose
payment intent has no price id. -/
def wwPI : WebhookWorld :=
  { constructEvent := .ok (.payment_intent_succeeded piNoMeta)
  , retrieveSubscription := fun _ => .error "ignored" }

/-- An action world whose provider price amount (999) differs from the
catalog amount (1500) while currency and type agree. -/
def worldAmt : ActionWorld :=
  { world0 with
    pricesRetrieve := .ok { unit_amount := some 999, currency := "gbp", type := "one_time" } }

/-- An action world whose provider price retrieval fails. -/
def worldFail : ActionWorld :=
  { world0 with pricesRetrieve := .error "provider down" }

/-! ## Library lemmas -/

theorem mem_addToSet {acc : List String} {a x : String} :
    x ∈ addToSet acc a ↔ x ∈ acc ∨ x = a := by
  by_cases h : a ∈ acc <;> simp [addToSet, h]
  rintro rfl
  exact h

theorem addToSet_of_mem {acc : List String} {a : String} (h : a ∈ acc) :
    addToSet acc a = acc := by
  simp [addToSet, h]

theorem mem_foldl_addToSet {l acc : List String} {x : String} :
    x ∈ l.foldl addToSet acc ↔ x ∈ acc ∨ x ∈ l := by
  induction l generalizing acc with
  | nil => simp
  | cons a t ih =>
      simp only [List.foldl_cons, ih, mem_addToSet, List.mem_cons]
      tauto

theorem mem_jsDedup {l : List String} {x : String} :
    x ∈ jsDedup l ↔ x ∈ l := by
  simp [jsDedup, mem_foldl_addToSet]

theorem nodup_addToSet {acc : List String} {a : String} (h : acc.Nodup) :
    (addToSet acc a).Nodup := by
  by_cases ha : a ∈ acc
  · simpa [addToSet, ha] using h
  · simp only [addToSet, ha, if_false]
    simpa [List.nodup_append] using ⟨h, ha⟩

theorem nodup_foldl_addToSet {l acc : List String} (h : acc.Nodup) :
    (l.foldl addToSet acc).Nodup := by
  induction l generalizing acc with
  | nil => simpa using h
  | cons a t ih => exact ih (nodup_addToSet h)

theorem nodup_jsDedup (l : List String) : (jsDedup l).Nodup :=
  nodup_foldl_addToSet List.nodup_nil

theorem foldl_addToSet_of_nodup {l acc : List String}
    (h : l.Nodup) (hd : ∀ x ∈ l, x ∉ acc) :
    l.foldl addToSet acc = acc ++ l := by
  induction l generalizing acc with
  | nil => simp
  | cons a t ih =>
      have ha : a ∉ acc := hd a (List.mem_cons_self a t)
      have hstep : addToSet acc a = acc ++ [a] := by simp [addToSet, ha]
      have ht : t.Nodup := h.of_cons
      have hd' : ∀ x ∈ t, x ∉ acc ++ [a] := by
        intro x hx
        have hxa : x ≠ a := by
          intro he; subst he
          exact (List.nodup_cons.mp h).1 hx
        simp [hd x (List.mem_cons_of_mem a hx), hxa]
      simp [hstep, ih ht hd']

theorem jsDedup_of_nodup {l : List String} (h : l.Nodup) : jsDedup l = l := by
  simpa [jsDedup] using foldl_addToSet_of_nodup h (by simp)

theorem jsDedup_jsDedup (l : List String) : jsDedup (jsDedup l) = jsDedup l :=
  jsDedup_of_nodup (nodup_jsDedup l)

theorem jsDedup_append_left (l m : List String) :
    jsDedup (jsDedup l ++ m) = jsDedup (l ++ m) := by
  have h := jsDedup_jsDedup l
  simp only [jsDedup, List.foldl_append] at *
  rw [h]

theorem filter_addToSet (p : String → Bool) (acc : List String) (a : String) :
    (addToSet acc a).filter p =
      if p a then addToSet (acc.filter p) a else acc.filter p := by
  by_cases ha : a ∈ acc
  · have hpa : p a = true → a ∈ acc.filter p := by
      intro hp; exact List.mem_filter.mpr ⟨ha, hp⟩
    by_cases hp : p a
    · simp [addToSet, ha, hp, addToSet_of_mem (hpa hp)]
    · simp [addToSet, ha, hp]
  · by_cases hp : p a
    · have : a ∉ acc.filter p := fun hx => ha (List.mem_filter.mp hx).1
      simp [addToSet, ha, hp, this, List.filter_append]
    · simp [addToSet, ha, hp, List.filter_append]

theorem filter_foldl_addToSet (p : String → Bool) (l acc : List String) :
    (l.foldl addToSet acc).filter p =
      (l.filter p).foldl addToSet (acc.filter p) := by
  induction l generalizing acc with
  | nil => simp
  | cons a t ih =>
      by_cases hp : p a
      · simp [List.foldl_cons, ih, filter_addToSet, hp]
      · simp [List.foldl_cons, ih, filter_addToSet, hp]

theorem filter_jsDedup (p : String → Bool) (l : List String) :
    (jsDedup l).filter p = jsDedup (l.filter p) := by
  simp [jsDedup, filter_foldl_addToSet]

theorem jsDedup_append_cons_dup (l m : List String) (a : String) :
    jsDedup (l ++ a :: a :: m) = jsDedup (l ++ a :: m) := by
  have hmem : a ∈ addToSet (l.foldl addToSet []) a := mem_addToSet.mpr (Or.inr rfl)
  simp only [jsDedup, List.foldl_append, List.foldl_cons]
  rw [addToSet_of_mem hmem]

theorem subscriptionFlagSet_eq (env : Env) :
    subscriptionFlagSet env = ["pro_content", "download_access", "priority_support"] :=
  rfl

theorem mem_getFlagsForPriceIds {env : Env} {priceIds : List String} {x : String} :
    x ∈ getFlagsForPriceIds env priceIds ↔
      ∃ plan, plan ∈ billingPlans env ∧ plan.priceId ∈ priceIds ∧ x ∈ plan.flags := by
  simp only [getFlagsForPriceIds, mem_jsDedup, List.mem_flatten, List.mem_map,
    List.mem_filter, List.contains, List.elem_iff]
  constructor
  · rintro ⟨l, ⟨plan, ⟨hp, hc⟩, rfl⟩, hx⟩
    exact ⟨plan, hp, hc, hx⟩
  · rintro ⟨plan, hp, hc, hx⟩
    exact ⟨plan.flags, ⟨plan, ⟨hp, hc⟩, rfl⟩, hx⟩

/-- `getFlagsForPriceIds` depends on the input only through the three
membership tests against the catalog price references. -/
theorem getFlagsForPriceIds_eq_cases (env : Env) (priceIds : List String) :
    getFlagsForPriceIds env priceIds =
      jsDedup
        ((if priceIds.contains env.STRIPE_PRICE_CONTENT_PACK then ["content_pack"] else []) ++
         (if priceIds.contains env.STRIPE_PRICE_PRO_MONTHLY then
            ["pro_content", "download_access"] else []) ++
         (if priceIds.contains env.STRIPE_PRICE_PRO_ANNUAL then
            ["pro_content", "download_access", "priority_support"] else [])) := by
  simp only [getFlagsForPriceIds, billingPlans, List.filter]
  rcases h1 : priceIds.contains env.STRIPE_PRICE_CONTENT_PACK <;>
    rcases h2 : priceIds.contains env.STRIPE_PRICE_PRO_MONTHLY <;>
      rcases h3 : priceIds.contains env.STRIPE_PRICE_PRO_ANNUAL <;>
        simp [h1, h2, h3]

theorem mem_subscriptionFlagSet {env : Env} {x : String} :
    x ∈ subscriptionFlagSet env ↔
      x = "pro_content" ∨ x = "download_access" ∨ x = "priority_support" := by
  rw [subscriptionFlagSet_eq]
  simp

theorem contains_subscriptionFlagSet {env : Env} {x : String} :
    ((subscriptionFlagSet env).contains x) = true ↔ x ∈ subscriptionFlagSet env := by
  simp [List.contains, List.elem_iff]

theorem mem_nextFlagsFor {env : Env} {cur pids : List String} {x : String} :
    x ∈ nextFlagsFor env cur pids ↔
      (x ∈ cur ∧ x ∉ subscriptionFlagSet env) ∨ x ∈ getFlagsForPriceIds env pids := by
  simp [nextFlagsFor, mem_jsDedup, List.mem_filter, List.contains, List.elem_iff]

theorem subUpdateRow_customer_id (s : Subscription) (next : List String)
    (p : Profile) : (subUpdateRow s next p).stripe_customer_id = p.stripe_customer_id :=
  rfl

theorem subDeleteRow_customer_id (s : Subscription) (retained : List String)
    (p : Profile) : (subDeleteRow s retained p).stripe_customer_id = p.stripe_customer_id :=
  rfl

theorem subUpdateRow_idem (s : Subscription) (next : List String) (p : Profile) :
    subUpdateRow s next (subUpdateRow s next p) = subUpdateRow s next p := by
  cases p
  rfl

theorem profilesFor_updateProfileForCustomer
    {db : List Profile} {c : String} {u : Profile → Profile}
    (hk : ∀ p, (u p).stripe_customer_id = p.stripe_customer_id) :
    profilesFor (updateProfileForCustomer db c u) c = (profilesFor db c).map u := by
  unfold profilesFor updateProfileForCustomer
  rw [List.filter_map]
  have h1 : db.filter ((fun p => p.stripe_customer_id == some c) ∘
      (fun p => if p.stripe_customer_id == some c then u p else p)) =
      db.filter (fun p => p.stripe_customer_id == some c) := by
    apply List.filter_congr
    intro p _
    by_cases h : p.stripe_customer_id = some c
    · simp [Function.comp, h, hk p]
    · simp [Function.comp, h]
  rw [h1]
  apply List.map_congr_left
  intro p hp
  have hq := (List.mem_filter.mp hp).2
  simp only [hq, if_true]

theorem updateProfileForCustomer_idem
    {db : List Profile} {c : String} {u : Profile → Profile}
    (hu : ∀ p, u (u p) = u p)
    (hk : ∀ p, (u p).stripe_customer_id = p.stripe_customer_id) :
    updateProfileForCustomer (updateProfileForCustomer db c u) c u =
      updateProfileForCustomer db c u := by
  unfold updateProfileForCustomer
  rw [List.map_map]
  apply List.map_congr_left
  intro p _
  by_cases h : p.stripe_customer_id = some c
  · simp [Function.comp, h, hk p, hu p]
  · have hb : (p.stripe_customer_id == some c) = false := by simpa using h
    simp [Function.comp, hb]

theorem jsDedup_absorb_dup_head (A rest : List String) (a : String) :
    jsDedup (A ++ ([a] ++ (a :: rest))) = jsDedup (A ++ a :: rest) := by
  have h : A ++ ([a] ++ (a :: rest)) = A ++ a :: a :: rest := by simp
  rw [h, jsDedup_append_cons_dup]

theorem filter_self_idem (p : String → Bool) (l : List String) :
    (l.filter p).filter p = l.filter p := by
  induction l with
  | nil => rfl
  | cons a t ih =>
      by_cases h : p a
      · simp [List.filter_cons, h, ih]
      · simp [List.filter_cons, h, ih]

theorem getFlags_cases4 (env : Env) (pids : List String) :
    getFlagsForPriceIds env pids = [] ∨
    getFlagsForPriceIds env pids = ["pro_content", "download_access"] ∨
    getFlagsForPriceIds env pids = ["pro_content", "download_access", "priority_support"] ∨
    getFlagsForPriceIds env pids = ["content_pack"] ∨
    getFlagsForPriceIds env pids = ["content_pack", "pro_content", "download_access"] ∨
    getFlagsForPriceIds env pids =
      ["content_pack", "pro_content", "download_access", "priority_support"] := by
  rw [getFlagsForPriceIds_eq_cases]
  rcases h1 : pids.contains env.STRIPE_PRICE_CONTENT_PACK <;>
    rcases h2 : pids.contains env.STRIPE_PRICE_PRO_MONTHLY <;>
      rcases h3 : pids.contains env.STRIPE_PRICE_PRO_ANNUAL <;> decide

theorem getFlags_filter_absorb (env : Env) (pids : List String) (A : List String) :
    jsDedup (A ++ ((getFlagsForPriceIds env pids).filter
        (fun flag => !(subscriptionFlagSet env).contains flag) ++
      getFlagsForPriceIds env pids)) =
    jsDedup (A ++ getFlagsForPriceIds env pids) := by
  rw [subscriptionFlagSet_eq]
  rcases getFlags_cases4 env pids with h | h | h | h | h | h <;> rw [h]
  · simp
  · rw [(by decide : (["pro_content", "download_access"]).filter
      (fun flag =>
        !(["pro_content", "download_access", "priority_support"]).contains flag) = [])]
    simp
  · rw [(by decide : (["pro_content", "download_access", "priority_support"]).filter
      (fun flag =>
        !(["pro_content", "download_access", "priority_support"]).contains flag) = [])]
    simp
  · rw [(by decide : (["content_pack"]).filter
      (fun flag =>
        !(["pro_content", "download_access", "priority_support"]).contains flag) =
      ["content_pack"])]
    exact jsDedup_absorb_dup_head A [] "content_pack"
  · rw [(by decide : (["content_pack", "pro_content", "download_access"]).filter
      (fun flag =>
        !(["pro_content", "download_access", "priority_support"]).contains flag) =
      ["content_pack"])]
    exact jsDedup_absorb_dup_head A ["pro_content", "download_access"] "content_pack"
  · rw [(by decide :
      (["content_pack", "pro_content", "download_access", "priority_support"]).filter
      (fun flag =>
        !(["pro_content", "download_access", "priority_support"]).contains flag) =
      ["content_pack"])]
    exact jsDedup_absorb_dup_head A
      ["pro_content", "download_access", "priority_support"] "content_pack"

theorem nextFlagsFor_idem (env : Env) (cur pids : List String) :
    nextFlagsFor env (nextFlagsFor env cur pids) pids = nextFlagsFor env cur pids := by
  unfold nextFlagsFor
  rw [filter_jsDedup, List.filter_append, jsDedup_append_left,
    filter_self_idem, List.append_assoc]
  exact getFlags_filter_absorb env pids _

theorem handleSubscriptionUpdate_eq (env : Env) (s : Subscription)
    (db : List Profile) (p : Profile) (c : String)
    (hc : s.customer = some c) (hc0 : c ≠ "") (hdb : profilesFor db c = [p]) :
    handleSubscriptionUpdate env s db =
      (.ok (updateProfileForCustomer db c
        (subUpdateRow s (nextFlagsFor env (p.feature_flags.getD []) (subPriceIds s)))),
       [DsOp.read c, DsOp.write c]) := by
  have hf : jsFalsyStr (some c) = false := by simp [jsFalsyStr, hc0]
  simp [handleSubscriptionUpdate, hc, hf, getProfileFlagsForCustomer, hdb]

theorem handleSubscriptionDeleted_eq (env : Env) (s : Subscription)
    (db : List Profile) (p : Profile) (c : String)
    (hc : s.customer = some c) (hc0 : c ≠ "") (hdb : profilesFor db c = [p]) :
    handleSubscriptionDeleted env s db =
      (.ok (updateProfileForCustomer db c
        (subDeleteRow s ((p.feature_flags.getD []).filter
          (fun flag => !(subscriptionFlagSet env).contains flag)))),
       [DsOp.read c, DsOp.write c]) := by
  have hf : jsFalsyStr (some c) = false := by simp [jsFalsyStr, hc0]
  simp [handleSubscriptionDeleted, hc, hf, getProfileFlagsForCustomer, hdb]

/-- C1: for every stored flag set and subscription event (with a customer
reference matching a unique stored profile), `handleSubscriptionUpdate`
stores exactly `(storedFlags − subscriptionFlagSet) ∪
getFlagsForPriceIds(item price ids)`: a stored flag outside
`subscriptionFlagSet` is retained, every flag of a catalog plan whose
price id appears among the subscription items is added, and nothing else
appears. -/
theorem subscription_update_stores_reconciled_flags
    (env : Env) (s : Subscription) (db : List Profile) (p : Profile) (c : String)
    (hc : s.customer = some c) (hc0 : c ≠ "") (hdb : profilesFor db c = [p]) :
    ∃ db1, handleSubscriptionUpdate env s db = (.ok db1, [DsOp.read c, DsOp.write c]) ∧
      ∃ q, profilesFor db1 c = [q] ∧
        ∀ x, x ∈ q.feature_flags.getD [] ↔
          ((x ∈ p.feature_flags.getD [] ∧ x ∉ subscriptionFlagSet env) ∨
            x ∈ getFlagsForPriceIds env (subPriceIds s)) := by
  refine ⟨_, handleSubscriptionUpdate_eq env s db p c hc hc0 hdb, ?_⟩
  refine ⟨subUpdateRow s (nextFlagsFor env (p.feature_flags.getD []) (subPriceIds s)) p,
    ?_, ?_⟩
  · rw [@profilesFor_updateProfileForCustomer db c
      (subUpdateRow s (nextFlagsFor env (p.feature_flags.getD []) (subPriceIds s)))
      (fun q => rfl), hdb]
    rfl
  · intro x
    show x ∈ (nextFlagsFor env (p.feature_flags.getD []) (subPriceIds s)) ↔ _
    exact mem_nextFlagsFor

/-- Witness for C1 at a concrete event and stored profile. -/
theorem subscription_update_stores_reconciled_flags_witness :
    ∃ db1, handleSubscriptionUpdate env0 subUpdated0 [profile0] =
        (.ok db1, [DsOp.read "cus_1", DsOp.write "cus_1"]) ∧
      ∃ q, profilesFor db1 "cus_1" = [q] ∧
        ∀ x, x ∈ q.feature_flags.getD [] ↔
          ((x ∈ profile0.feature_flags.getD [] ∧ x ∉ subscriptionFlagSet env0) ∨
            x ∈ getFlagsForPriceIds env0 (subPriceIds subUpdated0)) :=
  subscription_update_stores_reconciled_flags env0 subUpdated0 [profile0] profile0
    "cus_1" rfl (by decide) (by decide)

/-- C2: applying `handleSubscriptionUpdate` twice with the same
subscription event yields the same stored state as applying it once. -/
theorem subscription_update_idempotent
    (env : Env) (s : Subscription) (db : List Profile) (p : Profile) (c : String)
    (hc : s.customer = some c) (hc0 : c ≠ "") (hdb : profilesFor db c = [p]) :
    ∃ db1, (handleSubscriptionUpdate env s db).1 = .ok db1 ∧
      (handleSubscriptionUpdate env s db1).1 = .ok db1 := by
  have h1 := handleSubscriptionUpdate_eq env s db p c hc hc0 hdb
  refine ⟨updateProfileForCustomer db c
    (subUpdateRow s (nextFlagsFor env (p.feature_flags.getD []) (subPriceIds s))),
    by rw [h1], ?_⟩
  have hdb1 : profilesFor (updateProfileForCustomer db c
      (subUpdateRow s (nextFlagsFor env (p.feature_flags.getD []) (subPriceIds s)))) c =
      [subUpdateRow s (nextFlagsFor env (p.feature_flags.getD []) (subPriceIds s)) p] := by
    rw [@profilesFor_updateProfileForCustomer db c
      (subUpdateRow s (nextFlagsFor env (p.feature_flags.getD []) (subPriceIds s)))
      (fun q => rfl), hdb]
    rfl
  have h2 := handleSubscriptionUpdate_eq env s _ _ c hc hc0 hdb1
  rw [h2]
  have hnext : nextFlagsFor env
      ((subUpdateRow s (nextFlagsFor env (p.feature_flags.getD []) (subPriceIds s))
        p).feature_flags.getD []) (subPriceIds s) =
      nextFlagsFor env (p.feature_flags.getD []) (subPriceIds s) :=
    nextFlagsFor_idem env _ _
  rw [hnext]
  exact congrArg Except.ok
    (updateProfileForCustomer_idem (subUpdateRow_idem s _) (fun q => rfl))

/-- Witness for C2 at a concrete event and stored profile. -/
theorem subscription_update_idempotent_witness :
    ∃ db1, (handleSubscriptionUpdate env0 subUpdated0 [profile0]).1 = .ok db1 ∧
      (handleSubscriptionUpdate env0 subUpdated0 db1).1 = .ok db1 :=
  subscription_update_idempotent env0 subUpdated0 [profile0] profile0 "cus_1"
    rfl (by decide) (by decide)

/-- C3: `handleSubscriptionDeleted` stores exactly the stored flags not in
`subscriptionFlagSet`; a flag granted only by a one-time plan is never
removed by subscription deletion. -/
theorem subscription_deleted_keeps_one_time_flags
    (env : Env) (s : Subscription) (db : List Profile) (p : Profile) (c : String)
    (hc : s.customer = some c) (hc0 : c ≠ "") (hdb : profilesFor db c = [p]) :
    ∃ db1, handleSubscriptionDeleted env s db =
        (.ok db1, [DsOp.read c, DsOp.write c]) ∧
      ∃ q, profilesFor db1 c = [q] ∧
        q.feature_flags = some ((p.feature_flags.getD []).filter
          (fun flag => !(subscriptionFlagSet env).contains flag)) ∧
        ∀ x, x ∈ q.feature_flags.getD [] ↔
          (x ∈ p.feature_flags.getD [] ∧ x ∉ subscriptionFlagSet env) := by
  refine ⟨_, handleSubscriptionDeleted_eq env s db p c hc hc0 hdb, ?_⟩
  refine ⟨subDeleteRow s ((p.feature_flags.getD []).filter
      (fun flag => !(subscriptionFlagSet env).contains flag)) p, ?_, rfl, ?_⟩
  · rw [@profilesFor_updateProfileForCustomer db c
      (subDeleteRow s ((p.feature_flags.getD []).filter
        (fun flag => !(subscriptionFlagSet env).contains flag)))
      (fun q => rfl), hdb]
    rfl
  · intro x
    show x ∈ (p.feature_flags.getD []).filter
      (fun flag => !(subscriptionFlagSet env).contains flag) ↔ _
    simp [List.mem_filter, List.contains, List.elem_iff]

/-- Witness for C3: stored flags `[content_pack, pro_content]` become
exactly `[content_pack]` on subscription deletion. -/
theorem subscription_deleted_keeps_one_time_flags_witness :
    (∃ db1, handleSubscriptionDeleted env0 subDeleted0 [profile0] =
        (.ok db1, [DsOp.read "cus_1", DsOp.write "cus_1"]) ∧
      ∃ q, profilesFor db1 "cus_1" = [q] ∧
        q.feature_flags = some ((profile0.feature_flags.getD []).filter
          (fun flag => !(subscriptionFlagSet env0).contains flag)) ∧
        ∀ x, x ∈ q.feature_flags.getD [] ↔
          (x ∈ profile0.feature_flags.getD [] ∧ x ∉ subscriptionFlagSet env0)) ∧
    (profile0.feature_flags.getD []).filter
      (fun flag => !(subscriptionFlagSet env0).contains flag) = ["content_pack"] :=
  ⟨subscription_deleted_keeps_one_time_flags env0 subDeleted0 [profile0] profile0
    "cus_1" rfl (by decide) (by decide), by decide⟩

/-- C4: `getFlagsForPriceIds` is determined by the set of input price ids
(order and duplicates are irrelevant), returns no duplicate flags, and its
result is exactly the union of the flags of the catalog plans whose price
id is a member of the input. -/
theorem getFlagsForPriceIds_set_semantics
    (env : Env) (p1 p2 : List String)
    (h : ∀ a, a ∈ p1 ↔ a ∈ p2) :
    getFlagsForPriceIds env p1 = getFlagsForPriceIds env p2 ∧
    (getFlagsForPriceIds env p1).Nodup ∧
    ∀ x, x ∈ getFlagsForPriceIds env p1 ↔
      ∃ plan, plan ∈ billingPlans env ∧ plan.priceId ∈ p1 ∧ x ∈ plan.flags := by
  refine ⟨?_, nodup_jsDedup _, fun x => mem_getFlagsForPriceIds⟩
  have hc : ∀ a, p1.contains a = p2.contains a := by
    intro a
    rw [Bool.eq_iff_iff]
    simp [List.contains, List.elem_iff, h a]
  unfold getFlagsForPriceIds
  rw [List.filter_congr (fun plan _ => hc plan.priceId)]

/-- Witness for C4: the two orderings (with a duplicate) of the monthly
and annual price references yield syntactically equal flag lists. -/
theorem getFlagsForPriceIds_set_semantics_witness :
    getFlagsForPriceIds env0 ["price_mo", "price_an"] =
      getFlagsForPriceIds env0 ["price_an", "price_mo", "price_mo"] ∧
    (getFlagsForPriceIds env0 ["price_mo", "price_an"]).Nodup ∧
    ∀ x, x ∈ getFlagsForPriceIds env0 ["price_mo", "price_an"] ↔
      ∃ plan, plan ∈ billingPlans env0 ∧ plan.priceId ∈ ["price_mo", "price_an"] ∧
        x ∈ plan.flags :=
  getFlagsForPriceIds_set_semantics env0 ["price_mo", "price_an"]
    ["price_an", "price_mo", "price_mo"]
    (by intro a; constructor <;> (intro ha; simp at ha ⊢; tauto))

/-- C5: a webhook POST whose signature header is missing (or empty, hence
falsy) or whose signature verification throws is answered 400 with no
datastore read or write and no event dispatch; the stored state is
unchanged. -/
theorem webhook_rejects_bad_signature
    (env : Env) (w : WebhookWorld) (sig : Option String) (db : List Profile)
    (h : jsFalsyStr sig = true ∨ ∃ e, w.constructEvent = .error e) :
    (POST env w sig db).status = 400 ∧ (POST env w sig db).db = db ∧
    (POST env w sig db).ops = [] ∧ (POST env w sig db).dispatched = false := by
  rcases h with h | ⟨e, h⟩
  · simp [POST, h]
  · by_cases hf : jsFalsyStr sig = true
    · simp [POST, hf]
    · have hf2 : jsFalsyStr sig = false := by
        rcases hb : jsFalsyStr sig
        · rfl
        · exact absurd hb hf
      simp [POST, hf2, h]

/-- Witness for C5 at a missing signature header. -/
theorem webhook_rejects_bad_signature_witness :
    (POST env0 wwBadSig none [profile0]).status = 400 ∧
    (POST env0 wwBadSig none [profile0]).db = [profile0] ∧
    (POST env0 wwBadSig none [profile0]).ops = [] ∧
    (POST env0 wwBadSig none [profile0]).dispatched = false :=
  webhook_rejects_bad_signature env0 wwBadSig none [profile0] (Or.inl rfl)

/-- C10: a `payment_intent.succeeded` event whose payment intent lacks a
`price_id` metadata entry or a customer reference leads to no datastore
read or write, an unchanged stored profile, and a 200 `ok` response. -/
theorem webhook_ignores_unattributable_payment
    (env : Env) (w : WebhookWorld) (sig : Option String) (db : List Profile)
    (pi : PaymentIntent)
    (hs : jsFalsyStr sig = false)
    (he : w.constructEvent = .ok (.payment_intent_succeeded pi))
    (hp : jsFalsyStr pi.metadata_price_id = true ∨ jsFalsyStr pi.customer = true) :
    POST env w sig db =
      { status := 200, body := "ok", db := db, ops := [], dispatched := true } := by
  have hh : handlePaymentIntentSucceeded env pi db = (.ok db, []) := by
    rcases hp with hp | hp
    · simp [handlePaymentIntentSucceeded, hp]
    · simp [handlePaymentIntentSucceeded, hp]
  simp [POST, hs, he, dispatchEvent, hh]

/-- Witness for C10 at a payment intent with no metadata price id. -/
theorem webhook_ignores_unattributable_payment_witness :
    POST env0 wwPI (some "t") [profile0] =
      { status := 200, body := "ok", db := [profile0], ops := []
      , dispatched := true } :=
  webhook_ignores_unattributable_payment env0 wwPI (some "t") [profile0] piNoMeta
    rfl rfl (Or.inl rfl)

/-- C6: for every authenticated user, `createSubscription` with a price id
that resolves to a one-time plan, or to no catalog plan, returns the
invalid-plan-selection error result and makes no provider call (in
particular it creates no provider subscription). -/
theorem create_subscription_rejects_one_time_price
    (env : Env) (w : ActionWorld) (priceId : String) (u : User)
    (ha : w.authUser = some u)
    (hp : getPlanByPriceId env priceId = none ∨
      ∃ plan, getPlanByPriceId env priceId = some plan ∧ plan.interval = "one_time") :
    createSubscription env w priceId =
      ⟨.ok (.errorMsg "Invalid price selection."), []⟩ := by
  rcases hp with hp | ⟨plan, hp, hi⟩
  · simp [createSubscription, ha, hp]
  · simp [createSubscription, ha, hp, hi]

/-- Witness for C6 at the one-time content-pack price. -/
theorem create_subscription_rejects_one_time_price_witness :
    createSubscription env0 world0 "price_cp" =
      ⟨.ok (.errorMsg "Invalid price selection."), []⟩ :=
  create_subscription_rejects_one_time_price env0 world0 "price_cp" user0 rfl
    (Or.inr ⟨_, rfl, rfl⟩)

/-- C7: for an authenticated user whose stored profile carries the
requested recurring price id and an active or trialing subscription,
`updateSubscription` returns the already-on-this-plan error result and
makes no provider call (in particular neither `subscriptions.retrieve`
nor `subscriptions.update`). -/
theorem update_subscription_rejects_same_plan
    (env : Env) (w : ActionWorld) (newPriceId : String) (u : User)
    (plan : BillingPlan) (row : SubRow) (sid : String)
    (ha : w.authUser = some u)
    (hp : getPlanByPriceId env newPriceId = some plan)
    (hi : plan.interval ≠ "one_time")
    (hr : w.selectSubRow = .ok row)
    (hsid : row.stripe_subscription_id = some sid)
    (hsid0 : sid ≠ "")
    (hst : row.stripe_subscription_status = some "active" ∨
      row.stripe_subscription_status = some "trialing")
    (hpr : row.stripe_price_id = some newPriceId) :
    updateSubscription env w newPriceId =
      ⟨.ok (.errorMsg "You are already on this plan."), []⟩ := by
  have hfal : jsFalsyStr row.stripe_subscription_id = false := by
    simp [jsFalsyStr, hsid, hsid0]
  rcases hst with hst | hst
  · simp [updateSubscription, ha, hp, hi, hr, hfal, hst, hpr]
  · simp [updateSubscription, ha, hp, hi, hr, hfal, hst, hpr]

/-- Witness for C7 at the stored monthly plan. -/
theorem update_subscription_rejects_same_plan_witness :
    updateSubscription env0 world0 "price_mo" =
      ⟨.ok (.errorMsg "You are already on this plan."), []⟩ :=
  update_subscription_rejects_same_plan env0 world0 "price_mo" user0
    { id := "pro_monthly"
    , name := "Pro Monthly"
    , description := "Monthly subscription with downloads."
    , priceId := "price_mo"
    , amount := 1200
    , currency := "gbp"
    , interval := "month"
    , flags := ["pro_content", "download_access"] }
    { stripe_subscription_id := some "sub_1"
    , stripe_price_id := some "price_mo"
    , stripe_subscription_status := some "active" }
    "sub_1" rfl (by decide) (by decide) rfl rfl (by decide) (Or.inl rfl) rfl

theorem jsFalsyNum_eq_true {o : Option Int} :
    jsFalsyNum o = true ↔ o = none ∨ o = some 0 := by
  cases o <;> simp [jsFalsyNum]

theorem ensureStripeCustomer_stored (w : ActionWorld) (cid : String)
    (hsel : w.selectCustomerId = .ok (some cid)) (hcid : cid ≠ "") :
    ensureStripeCustomer w = (.ok cid, []) := by
  simp [ensureStripeCustomer, hsel, jsFalsyStr, hcid]

/-- C9 counterexample: with the catalog amount 1500 and a provider price
of amount 999 (currency and type matching), `createPaymentIntent` does
not return the provider-configuration-mismatch error: it creates the
payment intent and returns its client secret. -/
theorem create_payment_intent_ignores_amount_mismatch :
    (getPlanByPriceId env0 "price_cp").map (fun plan => plan.amount) = some 1500 ∧
    worldAmt.pricesRetrieve =
      .ok { unit_amount := some 999, currency := "gbp", type := "one_time" } ∧
    createPaymentIntent env0 worldAmt "price_cp" =
      ⟨.ok (.clientSecret (some "secret_1")),
       [Call.pricesRetrieve, Call.paymentIntentsCreate]⟩ :=
  ⟨rfl, rfl, rfl⟩

/-- C9 amended: under an authenticated user, a one-time catalog plan and a
successful customer lookup and price fetch, `createPaymentIntent` returns
the provider-configuration-mismatch error exactly when the provider price
has a missing or zero `unit_amount`, a currency differing from the
catalog plan, or a non-one-time type; the provider amount is never
compared with the catalog amount.  When the error fires, no payment
intent is created. -/
theorem create_payment_intent_price_config_check
    (env : Env) (w : ActionWorld) (priceId : String) (u : User)
    (plan : BillingPlan) (cid : String) (price : StripePrice)
    (ha : w.authUser = some u)
    (hp : getPlanByPriceId env priceId = some plan)
    (hi : plan.interval = "one_time")
    (hsel : w.selectCustomerId = .ok (some cid)) (hcid : cid ≠ "")
    (hpr : w.pricesRetrieve = .ok price) :
    ((createPaymentIntent env w priceId).res =
        .ok (.errorMsg "Price configuration error.") ↔
      (price.unit_amount = none ∨ price.unit_amount = some 0 ∨
        price.currency ≠ plan.currency ∨ price.type ≠ "one_time")) ∧
    ((price.unit_amount = none ∨ price.unit_amount = some 0 ∨
        price.currency ≠ plan.currency ∨ price.type ≠ "one_time") →
      Call.paymentIntentsCreate ∉ (createPaymentIntent env w priceId).calls) := by
  have hens := ensureStripeCustomer_stored w cid hsel hcid
  have hiff : (jsFalsyNum price.unit_amount || price.currency != plan.currency ||
      price.type != "one_time") = true ↔
      (price.unit_amount = none ∨ price.unit_amount = some 0 ∨
        price.currency ≠ plan.currency ∨ price.type ≠ "one_time") := by
    simp [Bool.or_eq_true, jsFalsyNum_eq_true, or_assoc]
  rcases hg : (jsFalsyNum price.unit_amount || price.currency != plan.currency ||
      price.type != "one_time") with _ | _
  · constructor
    · rw [← hiff, hg]
      constructor
      · intro hres
        exfalso
        rcases hpc : w.paymentIntentsCreate with e | secret
        · simp [createPaymentIntent, ha, hp, hi, hens, hpr, hg, hpc] at hres
        · simp [createPaymentIntent, ha, hp, hi, hens, hpr, hg, hpc] at hres
      · intro hfalse
        cases hfalse
    · intro hmem
      rw [← hiff, hg] at hmem
      cases hmem
  · constructor
    · rw [← hiff, hg]
      simp [createPaymentIntent, ha, hp, hi, hens, hpr, hg]
    · intro _
      simp [createPaymentIntent, ha, hp, hi, hens, hpr, hg]

/-- Witness for the amended C9 at a provider price with the wrong
currency. -/
theorem create_payment_intent_price_config_check_witness :
    ((createPaymentIntent env0
        ({ world0 with
           pricesRetrieve := .ok { unit_amount := some 1500, currency := "usd", type := "one_time" } })
        "price_cp").res =
        .ok (.errorMsg "Price configuration error.") ↔
      ((some 1500 : Option Int) = none ∨ (some 1500 : Option Int) = some 0 ∨
        ("usd" : String) ≠ "gbp" ∨ ("one_time" : String) ≠ "one_time")) ∧
    (((some 1500 : Option Int) = none ∨ (some 1500 : Option Int) = some 0 ∨
        ("usd" : String) ≠ "gbp" ∨ ("one_time" : String) ≠ "one_time") →
      Call.paymentIntentsCreate ∉
        (createPaymentIntent env0
          ({ world0 with
             pricesRetrieve := .ok { unit_amount := some 1500, currency := "usd", type := "one_time" } })
          "price_cp").calls) :=
  create_payment_intent_price_config_check env0
    ({ world0 with
       pricesRetrieve := .ok { unit_amount := some 1500, currency := "usd", type := "one_time" } })
    "price_cp" user0
    { id := "content_pack"
    , name := "Content Pack"
    , description := "One-time access to premium content."
    , priceId := "price_cp"
    , amount := 1500
    , currency := "gbp"
    , interval := "one_time"
    , flags := ["content_pack"] }
    "cus_1" { unit_amount := some 1500, currency := "usd", type := "one_time" }
    rfl rfl rfl rfl (by decide) rfl

theorem cancelSubscription_no_throw (w : ActionWorld) :
    (cancelSubscription w).res.isOk = true := by
  unfold cancelSubscription
  repeat' split
  all_goals rfl

theorem createCustomerPortalSession_no_throw (w : ActionWorld) (r : String) :
    (createCustomerPortalSession w r).res.isOk = true := by
  unfold createCustomerPortalSession
  repeat' split
  all_goals rfl

theorem getBillingProfile_no_throw (w : ActionWorld) :
    (getBillingProfile w).res.isOk = true := by
  unfold getBillingProfile
  repeat' split
  all_goals rfl

theorem updateSubscription_no_throw (env : Env) (w : ActionWorld) (p : String) :
    (updateSubscription env w p).res.isOk = true := by
  unfold updateSubscription
  repeat' split
  all_goals rfl

/-- C8 counterexample: with an authenticated user, a valid one-time plan
and a stored customer reference, a failing provider price retrieval makes
`createPaymentIntent` throw the provider error past its boundary instead
of returning a result value (and the failing call is a provider call, not
a datastore call). -/
theorem create_payment_intent_provider_failure_throws :
    worldFail.selectCustomerId = .ok (some "cus_1") ∧
    worldFail.pricesRetrieve = .error "provider down" ∧
    (createPaymentIntent env0 worldFail "price_cp").res = .error "provider down" ∧
    ((createPaymentIntent env0 worldFail "price_cp").res).isOk = false :=
  ⟨rfl, rfl, rfl, rfl⟩

/-- C8 amended: `cancelSubscription`, `createCustomerPortalSession`,
`getBillingProfile` and `updateSubscription` surface every failing
provider or datastore call as an error result value and never throw;
`createPaymentIntent` and `createSubscription` return result values for
authentication failures, but propagate failing provider calls (price
retrieval, subscription creation) as exceptions past their boundary, as
they do datastore failures. -/
theorem billing_actions_failure_policy :
    (∀ w, (cancelSubscription w).res.isOk = true) ∧
    (∀ w r, (createCustomerPortalSession w r).res.isOk = true) ∧
    (∀ w, (getBillingProfile w).res.isOk = true) ∧
    (∀ env w p, (updateSubscription env w p).res.isOk = true) ∧
    (∀ env w p, w.authUser = none →
      createPaymentIntent env w p = ⟨.ok (.errorMsg "Not authenticated."), []⟩) ∧
    (∀ env w p, w.authUser = none →
      createSubscription env w p = ⟨.ok (.errorMsg "Not authenticated."), []⟩) ∧
    (∀ env w p u plan cid e, w.authUser = some u →
      getPlanByPriceId env p = some plan → plan.interval = "one_time" →
      w.selectCustomerId = .ok (some cid) → cid ≠ "" →
      w.pricesRetrieve = .error e →
      (createPaymentIntent env w p).res = .error e) ∧
    (∀ env w p u plan cid e, w.authUser = some u →
      getPlanByPriceId env p = some plan → plan.interval ≠ "one_time" →
      w.selectCustomerId = .ok (some cid) → cid ≠ "" →
      w.subscriptionsCreate = .error e →
      (createSubscription env w p).res = .error e) ∧
    (∀ env w p u plan e, w.authUser = some u →
      getPlanByPriceId env p = some plan → plan.interval = "one_time" →
      w.selectCustomerId = .error e →
      (createPaymentIntent env w p).res = .error e) := by
  refine ⟨cancelSubscription_no_throw, createCustomerPortalSession_no_throw,
    getBillingProfile_no_throw, updateSubscription_no_throw, ?_, ?_, ?_, ?_, ?_⟩
  · intro env w p ha
    simp [createPaymentIntent, ha]
  · intro env w p ha
    simp [createSubscription, ha]
  · intro env w p u plan cid e ha hp hi hsel hcid he
    simp [createPaymentIntent, ha, hp, hi,
      ensureStripeCustomer_stored w cid hsel hcid, he]
  · intro env w p u plan cid e ha hp hi hsel hcid he
    simp [createSubscription, ha, hp, hi,
      ensureStripeCustomer_stored w cid hsel hcid, he]
  · intro env w p u plan e ha hp hi hsel
    simp [createPaymentIntent, ha, hp, hi, ensureStripeCustomer, hsel]

/-- Witness for the amended C8: a successful instantiation of the
no-throw conjunct and a thrown provider failure in `createPaymentIntent`. -/
theorem billing_actions_failure_policy_witness :
    (cancelSubscription world0).res.isOk = true ∧
    (createPaymentIntent env0 worldFail "price_cp").res = .error "provider down" :=
  ⟨billing_actions_failure_policy.1 world0,
   billing_actions_failure_policy.2.2.2.2.2.2.1 env0 worldFail "price_cp" user0
    { id := "content_pack"
    , name := "Content Pack"
    , description := "One-time access to premium content."
    , priceId := "price_cp"
    , amount := 1500
    , currency := "gbp"
    , interval := "one_time"
    , flags := ["content_pack"] }
    "cus_1" "provider down" rfl rfl rfl rfl (by decide) rfl⟩
